import Mathlib

/-!
Verification development for the decision and execution core of a spot
trading engine. The definitions below are shallow embeddings of the Rust
source (machine floating point is modelled by exact rationals, wall clock
reads are passed in as explicit parameters, and mutexes collapse in the
sequential model). Theorems at the end settle the behavioural claims.
-/

set_option linter.unusedVariables false

namespace Aurora

/-! ## Trade flow accumulator (market_data/trade_stream.rs)

Embeds TradeStreamProcessor. The Rust struct caches the buy volume ratio
in a field that process_trade refreshes; the field is embedded here under
the name buy_volume_share. -/

structure TradeStreamProcessor where
  symbol : String
  cvd : ℚ
  buy_volume : ℚ
  sell_volume : ℚ
  trade_count : ℕ
  last_price : ℚ
  /-- Cached buy volume ratio field of the Rust struct (buy_vol / total_vol). -/
  buy_volume_share : ℚ
deriving DecidableEq, Repr

def TradeStreamProcessor.new (symbol : String) : TradeStreamProcessor :=
  { symbol := symbol
    cvd := 0
    buy_volume := 0
    sell_volume := 0
    trade_count := 0
    last_price := 0
    buy_volume_share := 1/2 }

/-- Embeds TradeStreamProcessor.process_trade: accumulate the notional on the
buy or sell side, update cvd and last price, then refresh the cached ratio
field when the windowed total is positive. -/
def TradeStreamProcessor.process_trade (s : TradeStreamProcessor)
    (price quantity : ℚ) (is_buyer_maker : Bool) : TradeStreamProcessor :=
  let volume := price * quantity
  let s :=
    if is_buyer_maker then
      { s with sell_volume := s.sell_volume + volume, cvd := s.cvd - volume }
    else
      { s with buy_volume := s.buy_volume + volume, cvd := s.cvd + volume }
  let s := { s with last_price := price, trade_count := s.trade_count + 1 }
  let buy := s.buy_volume
  let sell := s.sell_volume
  let total := buy + sell
  if 0 < total then { s with buy_volume_share := buy / total } else s

/-- Embeds TradeStreamProcessor.reset_window: zero the windowed buy and sell
accumulators; cvd is cumulative and is not reset. The cached ratio field is
not touched either. -/
def TradeStreamProcessor.reset_window (s : TradeStreamProcessor) : TradeStreamProcessor :=
  { s with buy_volume := 0, sell_volume := 0 }

/-! ## Risk engine (risk.rs)

The Rust engine reads the wall clock through Utc::now; the embedding passes
the formatted date string in as the parameter named today. -/

structure RiskParams where
  capital : ℚ
  max_daily_loss_pct : ℚ
  max_consecutive_losses : ℕ
  max_drawdown_pct : ℚ
  max_daily_trades : ℕ
deriving DecidableEq, Repr

structure RiskInner where
  risk_mode : String
  daily_pnl : ℚ
  consecutive_losses : ℕ
  daily_trades_count : ℕ
  daily_wins : ℕ
  daily_losses : ℕ
  max_drawdown_today : ℚ
  peak_equity_today : ℚ
  current_date : String
  killed : Bool
deriving DecidableEq, Repr

/-- Embeds RiskEngine::new applied to the inner state only. -/
def RiskInner.new (p : RiskParams) (today : String) : RiskInner :=
  { risk_mode := "Normal"
    daily_pnl := 0
    consecutive_losses := 0
    daily_trades_count := 0
    daily_wins := 0
    daily_losses := 0
    max_drawdown_today := 0
    peak_equity_today := p.capital
    current_date := today
    killed := false }

/-- Embeds RiskEngine::do_reset. Note that the killed latch is read but never
cleared here: it decides the risk mode label and survives the reset. -/
def do_reset (s : RiskInner) (date : String) (capital : ℚ) : RiskInner :=
  { s with
    daily_pnl := 0
    consecutive_losses := 0
    daily_trades_count := 0
    daily_wins := 0
    daily_losses := 0
    max_drawdown_today := 0
    peak_equity_today := capital
    current_date := date
    risk_mode := if s.killed then "KILLED" else "Normal" }

/-- Embeds RiskEngine::maybe_reset_daily (the double checked locking pattern
collapses to one test in the sequential model). -/
def maybe_reset_daily (p : RiskParams) (s : RiskInner) (today : String) : RiskInner :=
  if s.current_date = today then s else do_reset s today p.capital

/-- Embeds RiskEngine::reset_daily, the manual admin reset. -/
def reset_daily (p : RiskParams) (s : RiskInner) (today : String) : RiskInner :=
  do_reset s today p.capital

/-- Embeds RiskEngine::kill. -/
def RiskInner.kill (s : RiskInner) : RiskInner :=
  { s with killed := true, risk_mode := "KILLED" }

/-- Embeds RiskEngine::compute_risk_mode. -/
def compute_risk_mode (p : RiskParams) (s : RiskInner) : String :=
  if s.killed then "KILLED"
  else
    let daily_loss_pct := if 0 < p.capital then (-s.daily_pnl) / p.capital else 0
    if p.max_daily_loss_pct ≤ daily_loss_pct
        ∨ p.max_consecutive_losses ≤ s.consecutive_losses
        ∨ p.max_drawdown_pct ≤ s.max_drawdown_today
        ∨ p.max_daily_trades ≤ s.daily_trades_count then
      "BREAKER_TRIPPED"
    else if p.max_daily_loss_pct * (3/4) ≤ daily_loss_pct
        ∨ (p.max_consecutive_losses : ℚ) * (3/4) ≤ (s.consecutive_losses : ℚ) then
      "Cautious"
    else "Normal"

/-- Embeds RiskEngine::record_trade_result. -/
def record_trade_result (p : RiskParams) (s : RiskInner) (today : String)
    (pnl : ℚ) : RiskInner :=
  let s := maybe_reset_daily p s today
  let s := { s with
    daily_pnl := s.daily_pnl + pnl
    daily_trades_count := s.daily_trades_count + 1 }
  let s :=
    if 0 ≤ pnl then
      { s with daily_wins := s.daily_wins + 1, consecutive_losses := 0 }
    else
      { s with daily_losses := s.daily_losses + 1,
               consecutive_losses := s.consecutive_losses + 1 }
  let current_equity := p.capital + s.daily_pnl
  let s :=
    if s.peak_equity_today < current_equity then
      { s with peak_equity_today := current_equity }
    else s
  let drawdown :=
    if 0 < s.peak_equity_today then
      (s.peak_equity_today - current_equity) / s.peak_equity_today
    else 0
  let s :=
    if s.max_drawdown_today < drawdown then
      { s with max_drawdown_today := drawdown }
    else s
  { s with risk_mode := compute_risk_mode p s }

/-- Embeds RiskEngine::can_trade. The returned pair carries the verdict and
the inner state after the implicit daily rollover check. Reason strings keep
the fixed prefixes of the source; numeric formatting is elided. -/
def can_trade (p : RiskParams) (s : RiskInner) (today : String) :
    (Bool × Option String) × RiskInner :=
  let s := maybe_reset_daily p s today
  let verdict :=
    if s.killed then (false, some "Kill switch activated")
    else
      let daily_loss_pct := if 0 < p.capital then (-s.daily_pnl) / p.capital else 0
      if p.max_daily_loss_pct ≤ daily_loss_pct then
        (false, some "Daily Loss breaker tripped")
      else if p.max_consecutive_losses ≤ s.consecutive_losses then
        (false, some "Consecutive Losses breaker tripped")
      else if p.max_drawdown_pct ≤ s.max_drawdown_today then
        (false, some "Max Drawdown breaker tripped")
      else if p.max_daily_trades ≤ s.daily_trades_count then
        (false, some "Trade Limit breaker tripped")
      else (true, none)
  (verdict, s)

/-! ## Triple barrier exit management (exit/triple_barrier.rs) -/

def MIN_SL_PCT : ℚ := 0.4
def MIN_TP1_PCT : ℚ := 0.6
def MIN_TP2_PCT : ℚ := 1.0
def BREAKEVEN_BUFFER_PCT : ℚ := 0.05
def TIGHTEN_START_FRACTION : ℚ := 0.50
def BREAKEVEN_LOCK_FRACTION : ℚ := 0.75
def PROFIT_LOCK_TRIGGER : ℚ := 0.50

/-- Embeds regime_params: per regime ATR multipliers
(sl, tp1, tp2, time_limit_secs). The source uppercases its argument first;
the embedding takes the already uppercased string. -/
def regime_params (regime : String) : ℚ × ℚ × ℚ × ℕ :=
  if regime = "TRENDING" then (1.5, 2.0, 4.0, 3600)
  else if regime = "RANGING" then (1.0, 1.5, 2.5, 1800)
  else if regime = "VOLATILE" then (2.0, 2.5, 5.0, 2400)
  else if regime = "SQUEEZE" then (0.8, 1.2, 2.0, 1200)
  else if regime = "DEAD" then (1.0, 1.0, 1.5, 600)
  else (1.2, 1.8, 3.0, 2400)

structure BarrierConfig where
  sl_pct : ℚ
  tp1_pct : ℚ
  tp2_pct : ℚ
  time_limit_secs : ℕ
  regime : String
deriving DecidableEq, Repr

/-- Embeds BarrierConfig::from_atr with the minimum floors. -/
def BarrierConfig.from_atr (atr_pct : ℚ) (regime : String) : BarrierConfig :=
  let param := regime_params regime
  { sl_pct := max (atr_pct * param.1) MIN_SL_PCT
    tp1_pct := max (atr_pct * param.2.1) MIN_TP1_PCT
    tp2_pct := max (atr_pct * param.2.2.1) MIN_TP2_PCT
    time_limit_secs := param.2.2.2
    regime := regime }

/-- Embeds BarrierConfig::explicit. -/
def BarrierConfig.explicit (sl_pct tp1_pct tp2_pct : ℚ)
    (time_limit_secs : ℕ) : BarrierConfig :=
  { sl_pct := max sl_pct MIN_SL_PCT
    tp1_pct := max tp1_pct MIN_TP1_PCT
    tp2_pct := max tp2_pct MIN_TP2_PCT
    time_limit_secs := time_limit_secs
    regime := "MANUAL" }

structure BarrierState where
  config : BarrierConfig
  entry_price : ℚ
  side : String
  current_sl_price : ℚ
  tp1_price : ℚ
  tp2_price : ℚ
  tp1_hit : Bool
  profit_lock_active : Bool
  breakeven_lock_active : Bool
  opened_at_secs : ℕ
deriving DecidableEq, Repr

inductive ExitReason where
  | StopLoss
  | TakeProfit1
  | TakeProfit2
  | TimeBarrier
deriving DecidableEq, Repr

/-- Embeds BarrierState::new: derive absolute barrier prices from the entry
price and percentage configuration. -/
def BarrierState.new (config : BarrierConfig) (entry_price : ℚ)
    (side : String) (opened_at_secs : ℕ) : BarrierState :=
  let prices :=
    if side = "BUY" then
      (entry_price * (1 - config.sl_pct / 100),
       entry_price * (1 + config.tp1_pct / 100),
       entry_price * (1 + config.tp2_pct / 100))
    else
      (entry_price * (1 + config.sl_pct / 100),
       entry_price * (1 - config.tp1_pct / 100),
       entry_price * (1 - config.tp2_pct / 100))
  { config := config
    entry_price := entry_price
    side := side
    current_sl_price := prices.1
    tp1_price := prices.2.1
    tp2_price := prices.2.2
    tp1_hit := false
    profit_lock_active := false
    breakeven_lock_active := false
    opened_at_secs := opened_at_secs }

/-- Embeds the profit lock block of BarrierState::evaluate: once favourable
excursion reaches half the TP1 distance, ratchet the SL to breakeven plus or
minus the buffer, never widening. -/
def profitLockStep (s : BarrierState) (current_price : ℚ) : BarrierState :=
  if s.profit_lock_active then s
  else
    let isLong := s.side = "BUY"
    let tp1_distance := |s.tp1_price - s.entry_price|
    let current_distance :=
      if isLong then current_price - s.entry_price else s.entry_price - current_price
    if PROFIT_LOCK_TRIGGER * tp1_distance ≤ current_distance then
      let breakeven_sl :=
        if isLong then s.entry_price * (1 + BREAKEVEN_BUFFER_PCT / 100)
        else s.entry_price * (1 - BREAKEVEN_BUFFER_PCT / 100)
      if isLong ∧ s.current_sl_price < breakeven_sl then
        { s with current_sl_price := breakeven_sl, profit_lock_active := true }
      else if ¬ isLong ∧ breakeven_sl < s.current_sl_price then
        { s with current_sl_price := breakeven_sl, profit_lock_active := true }
      else s
    else s

/-- Embeds the breakeven lock block of BarrierState::evaluate: at 75 percent
of the time budget, ratchet the SL to breakeven plus or minus the buffer. -/
def breakevenLockStep (s : BarrierState) (elapsed_fraction : ℚ) : BarrierState :=
  if ¬ s.breakeven_lock_active ∧ BREAKEVEN_LOCK_FRACTION ≤ elapsed_fraction then
    let isLong := s.side = "BUY"
    let breakeven_sl :=
      if isLong then s.entry_price * (1 + BREAKEVEN_BUFFER_PCT / 100)
      else s.entry_price * (1 - BREAKEVEN_BUFFER_PCT / 100)
    if isLong ∧ s.current_sl_price < breakeven_sl then
      { s with current_sl_price := breakeven_sl, breakeven_lock_active := true }
    else if ¬ isLong ∧ breakeven_sl < s.current_sl_price then
      { s with current_sl_price := breakeven_sl, breakeven_lock_active := true }
    else s
  else s

/-- Embeds the progressive tightening block of BarrierState::evaluate:
between 50 and 75 percent of the time budget, interpolate the SL linearly
from its original level toward the entry price, never widening. -/
def tighteningStep (s : BarrierState) (elapsed_fraction : ℚ) : BarrierState :=
  if ¬ s.breakeven_lock_active ∧ ¬ s.profit_lock_active
      ∧ TIGHTEN_START_FRACTION ≤ elapsed_fraction then
    let isLong := s.side = "BUY"
    let progress := (elapsed_fraction - TIGHTEN_START_FRACTION)
        / (BREAKEVEN_LOCK_FRACTION - TIGHTEN_START_FRACTION)
    let progress := min (max progress 0) 1
    let original_sl :=
      if isLong then s.entry_price * (1 - s.config.sl_pct / 100)
      else s.entry_price * (1 + s.config.sl_pct / 100)
    let tightened_sl := original_sl + progress * (s.entry_price - original_sl)
    if isLong ∧ s.current_sl_price < tightened_sl then
      { s with current_sl_price := tightened_sl }
    else if ¬ isLong ∧ tightened_sl < s.current_sl_price then
      { s with current_sl_price := tightened_sl }
    else s
  else s

/-- Composition of the three SL adjustment blocks of BarrierState::evaluate,
in source order: profit lock, breakeven lock, progressive tightening. -/
def barrierSteps (s : BarrierState) (current_price elapsed_fraction : ℚ) :
    BarrierState :=
  tighteningStep (breakevenLockStep (profitLockStep s current_price)
      elapsed_fraction) elapsed_fraction

/-- Embeds the barrier trigger checks at the tail of BarrierState::evaluate:
TP2 before TP1 (first hit only, latching the flag), then the current SL. -/
def barrierCheck (s : BarrierState) (current_price : ℚ) :
    Option ExitReason × BarrierState :=
  let isLong := s.side = "BUY"
  if isLong ∧ s.tp2_price ≤ current_price then (some ExitReason.TakeProfit2, s)
  else if ¬ isLong ∧ current_price ≤ s.tp2_price then (some ExitReason.TakeProfit2, s)
  else if ¬ s.tp1_hit ∧ isLong ∧ s.tp1_price ≤ current_price then
    (some ExitReason.TakeProfit1, { s with tp1_hit := true })
  else if ¬ s.tp1_hit ∧ ¬ isLong ∧ current_price ≤ s.tp1_price then
    (some ExitReason.TakeProfit1, { s with tp1_hit := true })
  else if isLong ∧ current_price ≤ s.current_sl_price then (some ExitReason.StopLoss, s)
  else if ¬ isLong ∧ s.current_sl_price ≤ current_price then (some ExitReason.StopLoss, s)
  else (none, s)

/-- Elapsed fraction of the time budget computed at the top of
BarrierState::evaluate (zero when the configured limit is zero). -/
def elapsedFraction (s : BarrierState) (current_time_secs : ℕ) : ℚ :=
  if 0 < s.config.time_limit_secs then
    ((current_time_secs - s.opened_at_secs : ℕ) : ℚ) / (s.config.time_limit_secs : ℚ)
  else 0

/-- Embeds BarrierState::evaluate. The mutable receiver becomes explicit
state passing: the returned pair is the triggered exit reason, if any, and
the state after the side effects. -/
def BarrierState.evaluate (s : BarrierState) (current_price : ℚ)
    (current_time_secs : ℕ) : Option ExitReason × BarrierState :=
  if s.config.time_limit_secs ≤ current_time_secs - s.opened_at_secs then
    (some ExitReason.TimeBarrier, s)
  else
    barrierCheck (barrierSteps s current_price (elapsedFraction s current_time_secs))
      current_price

/-- Folds BarrierState.evaluate over a list of (price, time) ticks,
discarding the per tick exit reasons. -/
def evalSeq (s : BarrierState) : List (ℚ × ℕ) → BarrierState
  | [] => s
  | t :: ts => evalSeq (s.evaluate t.1 t.2).2 ts

/-! ## Micro trail (exit/micro_trail.rs) -/

def LOOSE_ATR_MULT : ℚ := 1.5
def STANDARD_ATR_MULT : ℚ := 1.0
def AGGRESSIVE_ATR_MULT : ℚ := 0.5
def PHASE_STANDARD_START : ℚ := 0.30
def PHASE_AGGRESSIVE_START : ℚ := 0.60
def CVD_TIGHTEN_FACTOR : ℚ := 0.70
def OB_TIGHTEN_FACTOR : ℚ := 0.80
def VPIN_TOXIC_TIGHTEN_FACTOR : ℚ := 0.50
def VPIN_TOXIC_THRESHOLD : ℚ := 0.70
def OB_ADVERSE_THRESHOLD : ℚ := 0.3
def VELOCITY_THRESHOLD_PCT : ℚ := 0.30
def VELOCITY_WINDOW_SECS : ℕ := 5
def MIN_TRAIL_PCT : ℚ := 0.20

inductive TrailPhase where
  | Loose
  | Standard
  | Aggressive
deriving DecidableEq, Repr

def TrailPhase.display : TrailPhase → String
  | .Loose => "LOOSE"
  | .Standard => "STANDARD"
  | .Aggressive => "AGGRESSIVE"

structure OrderFlowContext where
  cvd : ℚ
  cvd_at_entry : ℚ
  orderbook_imbalance : ℚ
  vpin : ℚ
deriving DecidableEq, Repr

structure MicroTrailState where
  is_long : Bool
  entry_price : ℚ
  tp1_price : ℚ
  atr_5m : ℚ
  best_price : ℚ
  trail_price : ℚ
  phase : TrailPhase
  raw_trail_distance : ℚ
  adjusted_trail_distance : ℚ
  velocity_triggered : Bool
  price_history : List (ℚ × ℕ)
  of_tighten_mult : ℚ
  adjustment_reason : String
  cvd_at_entry : ℚ
deriving DecidableEq, Repr

/-- Embeds MicroTrailState::new. -/
def MicroTrailState.new (is_long : Bool) (entry_price tp1_price atr_5m : ℚ) :
    MicroTrailState :=
  let trail_distance := atr_5m * LOOSE_ATR_MULT
  { is_long := is_long
    entry_price := entry_price
    tp1_price := tp1_price
    atr_5m := atr_5m
    best_price := entry_price
    trail_price :=
      if is_long then entry_price - trail_distance else entry_price + trail_distance
    phase := TrailPhase.Loose
    raw_trail_distance := trail_distance
    adjusted_trail_distance := trail_distance
    velocity_triggered := false
    price_history := []
    of_tighten_mult := 1
    adjustment_reason := "initial"
    cvd_at_entry := 0 }

/-- Embeds the best price update at the top of MicroTrailState::evaluate.
For a short the source also overwrites the best price whenever it still
equals the entry price, which is the behaviour settled by claim C6. -/
def microBestPriceStep (s : MicroTrailState) (current_price : ℚ) : MicroTrailState :=
  if s.is_long ∧ s.best_price < current_price then
    { s with best_price := current_price }
  else if (¬ s.is_long) ∧ (current_price < s.best_price ∨ s.best_price = s.entry_price) then
    { s with best_price := current_price }
  else s

/-- Embeds the profit fraction and phase selection of
MicroTrailState::evaluate. -/
def microPhase (s : MicroTrailState) (current_price : ℚ) : TrailPhase :=
  let tp1_distance := |s.tp1_price - s.entry_price|
  let current_profit :=
    if s.is_long then current_price - s.entry_price else s.entry_price - current_price
  let profit_fraction :=
    if 0 < tp1_distance then min (max (current_profit / tp1_distance) (-1)) 3 else 0
  if PHASE_AGGRESSIVE_START ≤ profit_fraction then TrailPhase.Aggressive
  else if PHASE_STANDARD_START ≤ profit_fraction then TrailPhase.Standard
  else TrailPhase.Loose

/-- Embeds the per phase ATR multiplier table of MicroTrailState::evaluate. -/
def phaseAtrMult : TrailPhase → ℚ
  | TrailPhase.Loose => LOOSE_ATR_MULT
  | TrailPhase.Standard => STANDARD_ATR_MULT
  | TrailPhase.Aggressive => AGGRESSIVE_ATR_MULT

/-- Embeds the order flow adaptation block of MicroTrailState::evaluate:
the multiplicative tightening factors for CVD divergence, adverse book
imbalance and toxic VPIN. -/
def microTightenMult (is_long : Bool) (order_flow : OrderFlowContext) : ℚ :=
  let cvd_delta := order_flow.cvd - order_flow.cvd_at_entry
  let cvd_against := if is_long then cvd_delta < 0 else 0 < cvd_delta
  let m := if cvd_against then CVD_TIGHTEN_FACTOR else 1
  let ob_against :=
    if is_long then order_flow.orderbook_imbalance < -OB_ADVERSE_THRESHOLD
    else OB_ADVERSE_THRESHOLD < order_flow.orderbook_imbalance
  let m := if ob_against then m * OB_TIGHTEN_FACTOR else m
  if VPIN_TOXIC_THRESHOLD < order_flow.vpin then m * VPIN_TOXIC_TIGHTEN_FACTOR else m

/-- Embeds the velocity shield detection of MicroTrailState::evaluate on the
already pruned history. -/
def microVelocitySnap (is_long : Bool) (history : List (ℚ × ℕ))
    (current_price : ℚ) : Bool :=
  match history with
  | oldest :: _ :: _ =>
      let move_pct :=
        if is_long then (oldest.1 - current_price) / oldest.1 * 100
        else (current_price - oldest.1) / oldest.1 * 100
      decide (VELOCITY_THRESHOLD_PCT < move_pct)
  | _ => false

/-- Embeds the velocity shield snap block of MicroTrailState::evaluate. -/
def microVelocityStep (s : MicroTrailState) (velocity_snap : Bool)
    (current_price min_trail : ℚ) : MicroTrailState :=
  if velocity_snap ∧ ¬ s.velocity_triggered then
    let snapped :=
      if s.is_long then current_price - min_trail else current_price + min_trail
    let should_snap :=
      if s.is_long then s.trail_price < snapped else snapped < s.trail_price
    if should_snap then
      { s with velocity_triggered := true, trail_price := snapped }
    else { s with velocity_triggered := true }
  else { s with velocity_triggered := false }

/-- Embeds the final trail ratchet of MicroTrailState::evaluate: move the
trail toward the best price only when that tightens it. -/
def microRatchetStep (s : MicroTrailState) (trail_distance : ℚ) : MicroTrailState :=
  let candidate_trail :=
    if s.is_long then s.best_price - trail_distance else s.best_price + trail_distance
  let should_update :=
    if s.is_long then s.trail_price < candidate_trail
    else candidate_trail < s.trail_price
  if should_update then { s with trail_price := candidate_trail } else s

/-- Embeds MicroTrailState::evaluate: state passing replaces the mutable
receiver; the Bool result is the trail hit flag. The adjustment reason
string is rebuilt from the phase label only (reason tag joining elided). -/
def MicroTrailState.evaluate (s : MicroTrailState) (current_price : ℚ)
    (current_time_secs : ℕ) (order_flow : OrderFlowContext) :
    Bool × MicroTrailState :=
  let s := microBestPriceStep s current_price
  let s := { s with phase := microPhase s current_price }
  let trail_distance := s.atr_5m * phaseAtrMult s.phase
  let s := { s with raw_trail_distance := trail_distance }
  let tighten_mult := microTightenMult s.is_long order_flow
  let trail_distance := trail_distance * tighten_mult
  let s := { s with of_tighten_mult := tighten_mult }
  let min_trail := s.entry_price * MIN_TRAIL_PCT / 100
  let trail_distance := max trail_distance min_trail
  let s := { s with adjusted_trail_distance := trail_distance }
  let history := (s.price_history ++ [(current_price, current_time_secs)]).filter
      (fun e => current_time_secs - e.2 ≤ VELOCITY_WINDOW_SECS)
  let s := { s with price_history := history }
  let velocity_snap := microVelocitySnap s.is_long history current_price
  let s := microVelocityStep s velocity_snap current_price min_trail
  let s := microRatchetStep s trail_distance
  let s := { s with adjustment_reason := s.phase.display }
  let trail_hit :=
    if s.is_long then current_price ≤ s.trail_price else s.trail_price ≤ current_price
  (trail_hit, s)

/-! ## Regime classification (regime/detector.rs) -/

inductive MarketRegime where
  | Trending
  | Ranging
  | Volatile
  | Squeeze
  | Dead
deriving DecidableEq, Repr

/-- Embeds the Display implementation of MarketRegime, whose output is all
uppercase; several call sites compare against mixed case strings. -/
def regimeToString : MarketRegime → String
  | .Trending => "TRENDING"
  | .Ranging => "RANGING"
  | .Volatile => "VOLATILE"
  | .Squeeze => "SQUEEZE"
  | .Dead => "DEAD"

/-- Embeds MarketRegime::risk_params: ((reward, risk), max_position_pct). -/
def MarketRegime.risk_params : MarketRegime → (ℚ × ℚ) × ℚ
  | .Trending => ((3.0, 1.0), 100.0)
  | .Ranging => ((1.5, 1.0), 60.0)
  | .Volatile => ((2.5, 1.0), 40.0)
  | .Squeeze => ((4.0, 1.0), 30.0)
  | .Dead => ((0.0, 0.0), 0.0)

/-- Machine epsilon of 64 bit binary floating point, used by the source in
several guard comparisons. -/
def f64Eps : ℚ := 1 / 2 ^ 52

/-- Embeds the remap helper of the regime detector: linear remap with output
clamping. -/
def remap (value in_lo in_hi out_lo out_hi : ℚ) : ℚ :=
  let t := if |in_hi - in_lo| < f64Eps then 1/2 else (value - in_lo) / (in_hi - in_lo)
  let clamped := min (max t 0) 1
  out_lo + clamped * (out_hi - out_lo)

/-- Embeds the classify function of the regime detector: the priority ordered
rule list with its confidence remaps. -/
def classify (adx bbw hurst entropy : ℚ) : MarketRegime × ℚ :=
  if (0.95 : ℚ) ≤ entropy then
    (MarketRegime.Dead, remap entropy 0.95 1.0 0.70 1.0)
  else if (5.0 : ℚ) < bbw then
    (MarketRegime.Volatile, remap bbw 5.0 10.0 0.65 1.0)
  else if bbw < 1.5 ∧ adx < 20 then
    (MarketRegime.Squeeze,
      (remap bbw 1.5 0.5 0.50 1.0 + remap adx 20.0 5.0 0.50 1.0) / 2)
  else if (25 : ℚ) < adx ∧ (0.55 : ℚ) < hurst then
    (MarketRegime.Trending,
      (remap adx 25.0 50.0 0.60 1.0 + remap hurst 0.55 0.80 0.60 1.0) / 2)
  else if adx < 20 ∧ hurst < 0.45 then
    (MarketRegime.Ranging,
      (remap adx 20.0 5.0 0.50 1.0 + remap hurst 0.45 0.20 0.50 1.0) / 2)
  else (MarketRegime.Ranging, 0.30)

/-! ## Insurance gauntlet (trade_insurance.rs)

The gate reads several subsystems of the shared application state; the
embedding gathers exactly the values those reads produce. -/

inductive TradingMode where
  | Live
  | Paused
  | Killed
deriving DecidableEq, Repr

def MAX_SPREAD_BPS : ℚ := 15.0

structure InsuranceInput where
  trading_mode : TradingMode
  max_concurrent_positions : ℕ
  regime_snapshot : Option MarketRegime
  open_position_symbols : List String
  spread_bps : Option ℚ
  risk_allowed : Bool
  risk_reason : Option String
  no_go_reason : Option String
deriving DecidableEq, Repr

/-- Embeds InsuranceGate::check_all: the ordered gate list, first failure
returning its reason. Gate 3 compares the Display output of the regime
against the mixed case string Dead, exactly as the source does. Numeric
formatting inside reasons is elided. -/
def InsuranceGate.check_all (st : InsuranceInput) (symbol : String)
    (side : String) : Option String :=
  if st.trading_mode = TradingMode.Killed then
    some "Trading mode is KILLED"
  else if st.trading_mode = TradingMode.Paused then
    some "Trading mode is PAUSED"
  else if st.regime_snapshot.map regimeToString = some "Dead" then
    some "Market regime is DEAD (pure noise — no edge)"
  else if st.max_concurrent_positions ≤ st.open_position_symbols.length then
    some ("Max concurrent positions reached: "
      ++ toString st.open_position_symbols.length
      ++ " >= " ++ toString st.max_concurrent_positions)
  else if st.open_position_symbols.any (fun p => p = symbol) then
    some ("Already have an open position for " ++ symbol)
  else if st.spread_bps.any (fun spread => decide (MAX_SPREAD_BPS < spread)) then
    some "Spread too wide"
  else if st.risk_allowed = false then
    some ("Risk engine blocked: "
      ++ (st.risk_reason.getD "unknown"))
  else
    match st.no_go_reason with
    | some reason => some ("No-go reason active: " ++ reason)
    | none => none

/-! ## Smart filters, adaptive threshold stage (smart_filters.rs) and the
regime label read by the strategy pipeline (strategy.rs) -/

/-- Embeds the regime label computation of StrategyEngine::evaluate_symbol:
the Display string of the current snapshot, defaulting to the mixed case
string Ranging when no snapshot exists. -/
def regimeLabel (snapshot : Option MarketRegime) : String :=
  match snapshot with
  | some r => regimeToString r
  | none => "Ranging"

/-- Embeds the regime floor table of the adaptive threshold filter in
SmartFilterEngine::evaluate. The match arms use mixed case regime names. -/
def adaptiveMin (regime : String) : ℚ :=
  if regime = "Trending" then 0.10
  else if regime = "Ranging" then 0.18
  else if regime = "Volatile" then 0.20
  else if regime = "Squeeze" then 0.15
  else if regime = "Dead" then 999.0
  else 0.15

/-- Embeds the blocking condition of the adaptive threshold stage: when the
filter is enabled, block exactly when the absolute score is below the floor
looked up for the regime string. -/
def adaptiveThresholdBlocks (enabled : Bool) (regime : String) (score : ℚ) : Bool :=
  enabled && decide (|score| < adaptiveMin regime)

/-- Modelled from the spec: the floor table of specification section 4.H
item 4 keyed directly on the regime snapshot (Trending 0.10, Ranging 0.18,
Volatile 0.20, Squeeze 0.15, Dead always blocks), with the Ranging default
when no snapshot exists. Used only as the comparison point for claim C2. -/
def specAdaptiveBlocks (snapshot : Option MarketRegime) (score : ℚ) : Bool :=
  match snapshot.getD MarketRegime.Ranging with
  | MarketRegime.Trending => decide (|score| < 0.10)
  | MarketRegime.Ranging => decide (|score| < 0.18)
  | MarketRegime.Volatile => decide (|score| < 0.20)
  | MarketRegime.Squeeze => decide (|score| < 0.15)
  | MarketRegime.Dead => true

/-! ## Strategy pipeline, barrier sizing and proposal (strategy.rs) -/

structure StrategyParams where
  sl_atr_multiplier : ℚ
  tp1_atr_multiplier : ℚ
  tp2_atr_multiplier : ℚ
  min_sl_pct : ℚ
  min_tp1_pct : ℚ
  min_tp2_pct : ℚ
  base_position_pct : ℚ
deriving DecidableEq, Repr

/-- Embeds the Default implementation of StrategyParams
(runtime_config.rs default helpers). -/
def StrategyParams.default : StrategyParams :=
  { sl_atr_multiplier := 1.5
    tp1_atr_multiplier := 2.5
    tp2_atr_multiplier := 4.0
    min_sl_pct := 0.4
    min_tp1_pct := 0.6
    min_tp2_pct := 1.0
    base_position_pct := 2.0 }

structure TradeProposal where
  symbol : String
  side : String
  entry_price : ℚ
  quantity : ℚ
  stop_loss : ℚ
  take_profit_1 : ℚ
  take_profit_2 : ℚ
  confidence : ℚ
  regime : String
  score : ℚ
deriving DecidableEq, Repr

/-- Embeds steps 8 to 10 of StrategyEngine::evaluate_symbol: barrier
distances from the 5m ATR with the configured minimum floors, position
sizing from the quote balance, and the proposal record; returns none when
the computed quantity is not positive (the PositionSizing block). -/
def buildProposal (params : StrategyParams) (atr current_price : ℚ)
    (side : String) (usdt_balance : ℚ) (symbol regime : String)
    (score : ℚ) : Option TradeProposal :=
  let sl_distance := atr * params.sl_atr_multiplier
  let tp1_distance := atr * params.tp1_atr_multiplier
  let tp2_distance := atr * params.tp2_atr_multiplier
  let min_sl := current_price * (params.min_sl_pct / 100)
  let min_tp1 := current_price * (params.min_tp1_pct / 100)
  let min_tp2 := current_price * (params.min_tp2_pct / 100)
  let sl_dist := max sl_distance min_sl
  let tp1_dist := max tp1_distance min_tp1
  let tp2_dist := max tp2_distance min_tp2
  let prices :=
    if side = "BUY" then
      (current_price - sl_dist, current_price + tp1_dist, current_price + tp2_dist)
    else
      (current_price + sl_dist, current_price - tp1_dist, current_price - tp2_dist)
  let position_value := usdt_balance * (params.base_position_pct / 100)
  let quantity := if 0 < current_price then position_value / current_price else 0
  if quantity ≤ 0 then none
  else some
    { symbol := symbol
      side := side
      entry_price := current_price
      quantity := quantity
      stop_loss := prices.1
      take_profit_1 := prices.2.1
      take_profit_2 := prices.2.2
      confidence := |score|
      regime := regime
      score := score }

/-! ## Indicator kernel (indicators/, regime/hurst.rs, regime/entropy.rs)

Floating point square root, natural log and base two log have no exact
rational counterpart, so the embedded indicator functions take them as
function parameters; every structural decision (guards, option results,
defaulting) follows the source. Finiteness guards of the source hold
vacuously over exact rationals and are noted where they occur. -/

structure Candle where
  open_time : Int
  close_time : Int
  «open» : ℚ
  high : ℚ
  low : ℚ
  close : ℚ
  volume : ℚ
  quote_volume : ℚ
  trades_count : ℕ
  taker_buy_volume : ℚ
  taker_buy_quote_volume : ℚ
  is_closed : Bool
deriving DecidableEq, Repr

/-- Sum of a rational list, mirroring iter().sum(). -/
def qsum (l : List ℚ) : ℚ := l.foldl (· + ·) 0

/-- Embeds the per bar true range of atr.rs and adx.rs. -/
def trueRange (prev cur : Candle) : ℚ :=
  max (cur.high - cur.low) (max |cur.high - prev.close| |cur.low - prev.close|)

/-- Consecutive pairs of a candle list, oldest first. -/
def candlePairs (candles : List Candle) : List (Candle × Candle) :=
  candles.zip candles.tail

/-- Embeds calculate_atr (Wilder smoothing; the is_finite guards are
vacuous over exact rationals). -/
def calculate_atr (candles : List Candle) (period : ℕ) : Option ℚ :=
  if period = 0 ∨ candles.length < period + 1 then none
  else
    let tr_values := (candlePairs candles).map (fun pr => trueRange pr.1 pr.2)
    if tr_values.length < period then none
    else
      let seed := qsum (tr_values.take period) / (period : ℚ)
      some ((tr_values.drop period).foldl
        (fun atr tr => (atr * ((period : ℚ) - 1) + tr) / (period : ℚ)) seed)

/-- Embeds the per bar +DM of adx.rs. -/
def plusDM (prev cur : Candle) : ℚ :=
  let up_move := cur.high - prev.high
  let down_move := prev.low - cur.low
  if down_move < up_move ∧ 0 < up_move then up_move else 0

/-- Embeds the per bar -DM of adx.rs. -/
def minusDM (prev cur : Candle) : ℚ :=
  let up_move := cur.high - prev.high
  let down_move := prev.low - cur.low
  if up_move < down_move ∧ 0 < down_move then down_move else 0

/-- Embeds compute_dx of adx.rs. -/
def compute_dx (smooth_plus_dm smooth_minus_dm smooth_tr : ℚ) : Option ℚ :=
  if smooth_tr = 0 then none
  else
    let plus_di := smooth_plus_dm / smooth_tr * 100
    let minus_di := smooth_minus_dm / smooth_tr * 100
    let di_sum := plus_di + minus_di
    if di_sum = 0 then some 0
    else some (|plus_di - minus_di| / di_sum * 100)

/-- One Wilder smoothing step of adx.rs: drop a period fraction of the sum
and add the new raw value. -/
def wilderStep (period sm x : ℚ) : ℚ := sm - sm / period + x

/-- Embeds the DX collection loop of calculate_adx, folding Wilder smoothing
over the bars past the seed window; fails (none) as soon as compute_dx does. -/
def adxDxValues (period : ℕ) (plus_dm minus_dm tr_vals : List ℚ) :
    Option (List ℚ) := do
  let p : ℚ := (period : ℚ)
  let sp := qsum (plus_dm.take period)
  let sm := qsum (minus_dm.take period)
  let st := qsum (tr_vals.take period)
  let dx0 ← compute_dx sp sm st
  let rest := (plus_dm.drop period).zip ((minus_dm.drop period).zip (tr_vals.drop period))
  let out ← rest.foldlM
    (fun (acc : ℚ × ℚ × ℚ × List ℚ) trip => do
      let sp := wilderStep p acc.1 trip.1
      let sm := wilderStep p acc.2.1 trip.2.1
      let st := wilderStep p acc.2.2.1 trip.2.2
      let dx ← compute_dx sp sm st
      pure (sp, sm, st, acc.2.2.2 ++ [dx]))
    (sp, sm, st, [dx0])
  pure out.2.2.2

/-- Embeds calculate_adx (the is_finite guards are vacuous over exact
rationals). -/
def calculate_adx (candles : List Candle) (period : ℕ) : Option ℚ :=
  if period = 0 then none
  else if candles.length < 2 * period + 1 then none
  else do
    let pairs := candlePairs candles
    let plus_dm := pairs.map fun pr => plusDM pr.1 pr.2
    let minus_dm := pairs.map fun pr => minusDM pr.1 pr.2
    let tr_vals := pairs.map fun pr => trueRange pr.1 pr.2
    let dx_values ← adxDxValues period plus_dm minus_dm tr_vals
    if dx_values.length < period then none
    else
      let seed := qsum (dx_values.take period) / (period : ℚ)
      some ((dx_values.drop period).foldl
        (fun adx dx => (adx * ((period : ℚ) - 1) + dx) / (period : ℚ)) seed)

structure BollingerResult where
  upper : ℚ
  middle : ℚ
  lower : ℚ
  width : ℚ
deriving DecidableEq, Repr

/-- Embeds calculate_bollinger; sqrtQ stands for floating point sqrt. The
final is_finite check is vacuous over exact rationals once the middle band
is known to be nonzero. -/
def calculate_bollinger (sqrtQ : ℚ → ℚ) (closes : List ℚ) (period : ℕ)
    (num_std : ℚ) : Option BollingerResult :=
  if period = 0 ∨ closes.length < period then none
  else
    let window := closes.drop (closes.length - period)
    let middle := qsum window / (period : ℚ)
    if middle = 0 then none
    else
      let variance := qsum (window.map fun x => (x - middle) ^ 2) / (period : ℚ)
      let std_dev := sqrtQ variance
      let upper := middle + num_std * std_dev
      let lower := middle - num_std * std_dev
      some { upper := upper, middle := middle, lower := lower,
             width := (upper - lower) / middle * 100 }

def MIN_CLOSES : ℕ := 64

def WINDOW_SIZES : List ℕ := [8, 16, 32, 64]

/-- Embeds the per chunk R over S statistic of calculate_hurst_exponent;
none models the skipped flat chunk (std dev below machine epsilon). The
infinite fold seeds of the source collapse to folds over the nonempty
cumulative list. -/
def hurstChunkRS (sqrtQ : ℚ → ℚ) (chunk : List ℚ) : Option ℚ :=
  let window := chunk.length
  let mean := qsum chunk / (window : ℚ)
  let variance := qsum (chunk.map fun x => (x - mean) ^ 2) / (window : ℚ)
  let std_dev := sqrtQ variance
  if std_dev < f64Eps then none
  else
    let cumulative := (chunk.scanl (fun running v => running + v - mean) 0).drop 1
    let hi := cumulative.foldl max (cumulative.headI)
    let lo := cumulative.foldl min (cumulative.headI)
    some ((hi - lo) / std_dev)

/-- Embeds the per window averaged R over S of calculate_hurst_exponent:
average over the valid (non flat) disjoint chunks, none when every chunk is
flat or the window does not fit. -/
def hurstWindowAvgRS (sqrtQ : ℚ → ℚ) (closes : List ℚ) (window : ℕ) : Option ℚ :=
  if closes.length < window ∨ closes.length / window = 0 then none
  else
    let num_chunks := closes.length / window
    let rsList := ((List.range num_chunks).filterMap fun chunk_idx =>
      hurstChunkRS sqrtQ ((closes.drop (chunk_idx * window)).take window))
    if rsList.length = 0 then none
    else some (qsum rsList / (rsList.length : ℚ))

/-- Embeds calculate_hurst_exponent: rescaled range analysis over the fixed
window sizes followed by an ordinary least squares slope of log average R
over S against log window size, clamped to the unit interval. sqrtQ and lnQ
stand for floating point sqrt and ln. -/
def calculate_hurst_exponent (sqrtQ lnQ : ℚ → ℚ) (closes : List ℚ) : Option ℚ :=
  if closes.length < MIN_CLOSES then none
  else
    let pts := WINDOW_SIZES.filterMap fun window =>
      (hurstWindowAvgRS sqrtQ closes window).map fun avg_rs =>
        (lnQ (window : ℚ), lnQ avg_rs)
    if pts.length < 2 then none
    else
      let n : ℚ := (pts.length : ℚ)
      let x_mean := qsum (pts.map Prod.fst) / n
      let y_mean := qsum (pts.map Prod.snd) / n
      let numerator := qsum (pts.map fun pt => (pt.1 - x_mean) * (pt.2 - y_mean))
      let denominator := qsum (pts.map fun pt => (pt.1 - x_mean) * (pt.1 - x_mean))
      if |denominator| < f64Eps then none
      else some (min (max (numerator / denominator) 0) 1)

/-- Embeds binary_entropy of regime/entropy.rs; log2Q stands for floating
point log2. -/
def binary_entropy (log2Q : ℚ → ℚ) (p q : ℚ) : ℚ :=
  (if 0 < p then -(p * log2Q p) else 0) + (if 0 < q then -(q * log2Q q) else 0)

/-- Embeds ShannonEntropyFilter::calculate. -/
def ShannonEntropyFilter.calculate (log2Q : ℚ → ℚ) (candles : List Candle)
    (window : ℕ) : Option ℚ :=
  if window = 0 ∨ candles.length < window then none
  else
    let slice := candles.drop (candles.length - window)
    let up_count := (slice.filter fun c => c.«open» < c.close).length
    let p_up := (up_count : ℚ) / (window : ℚ)
    some (binary_entropy log2Q p_up (1 - p_up))

/-! ## Regime detector (regime/detector.rs) -/

structure RegimeState where
  regime : MarketRegime
  adx : ℚ
  bbw : ℚ
  hurst : ℚ
  entropy : ℚ
  confidence : ℚ
  regime_age_secs : ℚ
  recommended_rr : ℚ × ℚ
  max_position_pct : ℚ
deriving DecidableEq, Repr

/-- Embeds RegimeDetector::detect. ADX, Hurst and entropy fall back to the
sentinel defaults 0, 0.5 and 0 when absent; only a missing Bollinger result
makes the whole detection absent. The wall clock age bookkeeping of the
source is passed in as the ageSecs parameter. -/
def RegimeDetector.detect (sqrtQ lnQ log2Q : ℚ → ℚ) (candles : List Candle)
    (closes : List ℚ) (ageSecs : ℚ) : Option RegimeState :=
  let adx_value := (calculate_adx candles 14).getD 0
  match calculate_bollinger sqrtQ closes 20 2 with
  | none => none
  | some bb_result =>
      let bbw_value := bb_result.width
      let hurst_value := (calculate_hurst_exponent sqrtQ lnQ closes).getD 0.50
      let entropy_value := (ShannonEntropyFilter.calculate log2Q candles 50).getD 0
      let rc := classify adx_value bbw_value hurst_value entropy_value
      let rp := rc.1.risk_params
      some
        { regime := rc.1
          adx := adx_value
          bbw := bbw_value
          hurst := hurst_value
          entropy := entropy_value
          confidence := rc.2
          regime_age_secs := ageSecs
          recommended_rr := rp.1
          max_position_pct := rp.2 }

/-! ## Helper lemmas on the triple barrier step functions -/

lemma profitLockStep_fields (s : BarrierState) (p : ℚ) :
    (profitLockStep s p).side = s.side
  ∧ (profitLockStep s p).entry_price = s.entry_price
  ∧ (profitLockStep s p).tp1_price = s.tp1_price
  ∧ (profitLockStep s p).tp2_price = s.tp2_price
  ∧ (profitLockStep s p).config = s.config
  ∧ (profitLockStep s p).opened_at_secs = s.opened_at_secs
  ∧ (profitLockStep s p).tp1_hit = s.tp1_hit
  ∧ (profitLockStep s p).breakeven_lock_active = s.breakeven_lock_active := by
  unfold profitLockStep
  repeat' (split_ifs <;> simp)

lemma breakevenLockStep_fields (s : BarrierState) (f : ℚ) :
    (breakevenLockStep s f).side = s.side
  ∧ (breakevenLockStep s f).entry_price = s.entry_price
  ∧ (breakevenLockStep s f).tp1_price = s.tp1_price
  ∧ (breakevenLockStep s f).tp2_price = s.tp2_price
  ∧ (breakevenLockStep s f).config = s.config
  ∧ (breakevenLockStep s f).opened_at_secs = s.opened_at_secs
  ∧ (breakevenLockStep s f).tp1_hit = s.tp1_hit
  ∧ (breakevenLockStep s f).profit_lock_active = s.profit_lock_active := by
  unfold breakevenLockStep
  repeat' (split_ifs <;> simp)

lemma tighteningStep_fields (s : BarrierState) (f : ℚ) :
    (tighteningStep s f).side = s.side
  ∧ (tighteningStep s f).entry_price = s.entry_price
  ∧ (tighteningStep s f).tp1_price = s.tp1_price
  ∧ (tighteningStep s f).tp2_price = s.tp2_price
  ∧ (tighteningStep s f).config = s.config
  ∧ (tighteningStep s f).opened_at_secs = s.opened_at_secs
  ∧ (tighteningStep s f).tp1_hit = s.tp1_hit
  ∧ (tighteningStep s f).profit_lock_active = s.profit_lock_active
  ∧ (tighteningStep s f).breakeven_lock_active = s.breakeven_lock_active := by
  unfold tighteningStep
  repeat' (split_ifs <;> simp)

lemma profitLockStep_sl_long (s : BarrierState) (p : ℚ) (h : s.side = "BUY") :
    s.current_sl_price ≤ (profitLockStep s p).current_sl_price := by
  unfold profitLockStep
  simp only [h]
  repeat' split_ifs
  all_goals simp_all
  all_goals linarith

lemma profitLockStep_sl_short (s : BarrierState) (p : ℚ) (h : ¬ s.side = "BUY") :
    (profitLockStep s p).current_sl_price ≤ s.current_sl_price := by
  unfold profitLockStep
  simp only [h]
  repeat' split_ifs
  all_goals simp_all
  all_goals linarith

lemma breakevenLockStep_sl_long (s : BarrierState) (f : ℚ) (h : s.side = "BUY") :
    s.current_sl_price ≤ (breakevenLockStep s f).current_sl_price := by
  unfold breakevenLockStep
  simp only [h]
  repeat' split_ifs
  all_goals simp_all
  all_goals linarith

lemma breakevenLockStep_sl_short (s : BarrierState) (f : ℚ) (h : ¬ s.side = "BUY") :
    (breakevenLockStep s f).current_sl_price ≤ s.current_sl_price := by
  unfold breakevenLockStep
  simp only [h]
  repeat' split_ifs
  all_goals simp_all
  all_goals linarith

lemma tighteningStep_sl_long (s : BarrierState) (f : ℚ) (h : s.side = "BUY") :
    s.current_sl_price ≤ (tighteningStep s f).current_sl_price := by
  unfold tighteningStep
  simp only [h]
  repeat' split_ifs
  all_goals simp_all
  all_goals linarith

lemma tighteningStep_sl_short (s : BarrierState) (f : ℚ) (h : ¬ s.side = "BUY") :
    (tighteningStep s f).current_sl_price ≤ s.current_sl_price := by
  unfold tighteningStep
  simp only [h]
  repeat' split_ifs
  all_goals simp_all
  all_goals linarith

lemma barrierSteps_side (s : BarrierState) (p f : ℚ) :
    (barrierSteps s p f).side = s.side := by
  unfold barrierSteps
  rw [(tighteningStep_fields _ _).1, (breakevenLockStep_fields _ _).1,
    (profitLockStep_fields _ _).1]

lemma barrierSteps_sl_long (s : BarrierState) (p f : ℚ) (h : s.side = "BUY") :
    s.current_sl_price ≤ (barrierSteps s p f).current_sl_price := by
  unfold barrierSteps
  have h1 : (profitLockStep s p).side = "BUY" := by
    rw [(profitLockStep_fields s p).1]; exact h
  have h2 : (breakevenLockStep (profitLockStep s p) f).side = "BUY" := by
    rw [(breakevenLockStep_fields _ _).1]; exact h1
  calc s.current_sl_price
      ≤ (profitLockStep s p).current_sl_price := profitLockStep_sl_long s p h
    _ ≤ (breakevenLockStep (profitLockStep s p) f).current_sl_price :=
        breakevenLockStep_sl_long _ f h1
    _ ≤ _ := tighteningStep_sl_long _ f h2

lemma barrierSteps_sl_short (s : BarrierState) (p f : ℚ) (h : ¬ s.side = "BUY") :
    (barrierSteps s p f).current_sl_price ≤ s.current_sl_price := by
  unfold barrierSteps
  have h1 : ¬ (profitLockStep s p).side = "BUY" := by
    rw [(profitLockStep_fields s p).1]; exact h
  have h2 : ¬ (breakevenLockStep (profitLockStep s p) f).side = "BUY" := by
    rw [(breakevenLockStep_fields _ _).1]; exact h1
  calc (barrierSteps s p f).current_sl_price
      ≤ (breakevenLockStep (profitLockStep s p) f).current_sl_price :=
        tighteningStep_sl_short _ f h2
    _ ≤ (profitLockStep s p).current_sl_price := breakevenLockStep_sl_short _ f h1
    _ ≤ s.current_sl_price := profitLockStep_sl_short s p h

lemma barrierCheck_state (s : BarrierState) (p : ℚ) :
    (barrierCheck s p).2 = s ∨ (barrierCheck s p).2 = { s with tp1_hit := true } := by
  unfold barrierCheck
  dsimp only
  repeat' (split_ifs <;> simp)

lemma evaluate_side (s : BarrierState) (p : ℚ) (t : ℕ) :
    (s.evaluate p t).2.side = s.side := by
  unfold BarrierState.evaluate
  split_ifs with h
  · rfl
  · rcases barrierCheck_state (barrierSteps s p (elapsedFraction s t)) p with hc | hc <;>
      rw [hc] <;> simp [barrierSteps_side]

lemma evaluate_sl_long (s : BarrierState) (p : ℚ) (t : ℕ) (h : s.side = "BUY") :
    s.current_sl_price ≤ (s.evaluate p t).2.current_sl_price := by
  unfold BarrierState.evaluate
  split_ifs with ht
  · exact le_refl _
  · rcases barrierCheck_state (barrierSteps s p (elapsedFraction s t)) p with hc | hc <;>
      rw [hc] <;> simpa using barrierSteps_sl_long s p (elapsedFraction s t) h

lemma evaluate_sl_short (s : BarrierState) (p : ℚ) (t : ℕ) (h : ¬ s.side = "BUY") :
    (s.evaluate p t).2.current_sl_price ≤ s.current_sl_price := by
  unfold BarrierState.evaluate
  split_ifs with ht
  · exact le_refl _
  · rcases barrierCheck_state (barrierSteps s p (elapsedFraction s t)) p with hc | hc <;>
      rw [hc] <;> simpa using barrierSteps_sl_short s p (elapsedFraction s t) h

lemma evalSeq_side (ticks : List (ℚ × ℕ)) (s : BarrierState) :
    (evalSeq s ticks).side = s.side := by
  induction ticks generalizing s with
  | nil => rfl
  | cons t ts ih => rw [evalSeq, ih, evaluate_side]

lemma evalSeq_sl_long (ticks : List (ℚ × ℕ)) (s : BarrierState)
    (h : s.side = "BUY") :
    s.current_sl_price ≤ (evalSeq s ticks).current_sl_price := by
  induction ticks generalizing s with
  | nil => exact le_refl _
  | cons t ts ih =>
      rw [evalSeq]
      have hside : (s.evaluate t.1 t.2).2.side = "BUY" := by
        rw [evaluate_side]; exact h
      exact le_trans (evaluate_sl_long s t.1 t.2 h) (ih _ hside)

lemma evalSeq_sl_short (ticks : List (ℚ × ℕ)) (s : BarrierState)
    (h : ¬ s.side = "BUY") :
    (evalSeq s ticks).current_sl_price ≤ s.current_sl_price := by
  induction ticks generalizing s with
  | nil => exact le_refl _
  | cons t ts ih =>
      rw [evalSeq]
      have hside : ¬ (s.evaluate t.1 t.2).2.side = "BUY" := by
        rw [evaluate_side]; exact h
      exact le_trans (ih _ hside) (evaluate_sl_short s t.1 t.2 h)

lemma barrierSteps_fields (s : BarrierState) (p f : ℚ) :
    (barrierSteps s p f).side = s.side
  ∧ (barrierSteps s p f).entry_price = s.entry_price
  ∧ (barrierSteps s p f).tp1_price = s.tp1_price
  ∧ (barrierSteps s p f).tp2_price = s.tp2_price
  ∧ (barrierSteps s p f).config = s.config
  ∧ (barrierSteps s p f).opened_at_secs = s.opened_at_secs
  ∧ (barrierSteps s p f).tp1_hit = s.tp1_hit := by
  unfold barrierSteps
  obtain ⟨t1, t2, t3, t4, t5, t6, t7, -, -⟩ :=
    tighteningStep_fields (breakevenLockStep (profitLockStep s p) f) f
  obtain ⟨b1, b2, b3, b4, b5, b6, b7, -⟩ :=
    breakevenLockStep_fields (profitLockStep s p) f
  obtain ⟨p1, p2, p3, p4, p5, p6, p7, -⟩ := profitLockStep_fields s p
  exact ⟨by rw [t1, b1, p1], by rw [t2, b2, p2], by rw [t3, b3, p3],
    by rw [t4, b4, p4], by rw [t5, b5, p5], by rw [t6, b6, p6], by rw [t7, b7, p7]⟩

lemma profitLockStep_noflag (s : BarrierState) (p : ℚ)
    (h : (profitLockStep s p).profit_lock_active = false) :
    profitLockStep s p = s := by
  unfold profitLockStep at h ⊢
  repeat' (split_ifs at h ⊢ <;> simp_all)

lemma breakevenLockStep_noflag (s : BarrierState) (f : ℚ)
    (h : (breakevenLockStep s f).breakeven_lock_active = false) :
    breakevenLockStep s f = s := by
  unfold breakevenLockStep at h ⊢
  repeat' (split_ifs at h ⊢ <;> simp_all)

lemma profitLockStep_noop (s u : BarrierState) (p : ℚ)
    (hside : u.side = s.side) (hentry : u.entry_price = s.entry_price)
    (htp1 : u.tp1_price = s.tp1_price)
    (hflag : u.profit_lock_active = (profitLockStep s p).profit_lock_active)
    (hlong : s.side = "BUY" →
      (profitLockStep s p).current_sl_price ≤ u.current_sl_price)
    (hshort : ¬ s.side = "BUY" →
      u.current_sl_price ≤ (profitLockStep s p).current_sl_price) :
    profitLockStep u p = u := by
  by_cases hb : s.side = "BUY"
  · have hl := hlong hb
    unfold profitLockStep at hflag hl ⊢
    simp only [hside, hentry, htp1, hb] at *
    repeat' split_ifs at hflag hl ⊢
    all_goals (repeat' (casesm* _ ∧ _))
    all_goals simp_all
    all_goals (exfalso; linarith)
  · have hs := hshort hb
    unfold profitLockStep at hflag hs ⊢
    simp only [hside, hentry, htp1] at *
    repeat' split_ifs at hflag hs ⊢
    all_goals (repeat' (casesm* _ ∧ _))
    all_goals simp_all
    all_goals (exfalso; linarith)

lemma breakevenLockStep_noop (s u : BarrierState) (f : ℚ)
    (hside : u.side = s.side) (hentry : u.entry_price = s.entry_price)
    (hflag : u.breakeven_lock_active = (breakevenLockStep s f).breakeven_lock_active)
    (hlong : s.side = "BUY" →
      (breakevenLockStep s f).current_sl_price ≤ u.current_sl_price)
    (hshort : ¬ s.side = "BUY" →
      u.current_sl_price ≤ (breakevenLockStep s f).current_sl_price) :
    breakevenLockStep u f = u := by
  by_cases hb : s.side = "BUY"
  · have hl := hlong hb
    unfold breakevenLockStep at hflag hl ⊢
    simp only [hside, hentry, hb] at *
    repeat' split_ifs at hflag hl ⊢
    all_goals (repeat' (casesm* _ ∧ _))
    all_goals simp_all
    all_goals (exfalso; linarith)
  · have hs := hshort hb
    unfold breakevenLockStep at hflag hs ⊢
    simp only [hside, hentry] at *
    repeat' split_ifs at hflag hs ⊢
    all_goals (repeat' (casesm* _ ∧ _))
    all_goals simp_all
    all_goals (exfalso; linarith)

lemma tighteningStep_noop (s u : BarrierState) (f : ℚ)
    (hside : u.side = s.side) (hentry : u.entry_price = s.entry_price)
    (hconfig : u.config = s.config)
    (hbe : u.breakeven_lock_active = s.breakeven_lock_active)
    (hpl : u.profit_lock_active = s.profit_lock_active)
    (hlong : s.side = "BUY" →
      (tighteningStep s f).current_sl_price ≤ u.current_sl_price)
    (hshort : ¬ s.side = "BUY" →
      u.current_sl_price ≤ (tighteningStep s f).current_sl_price) :
    tighteningStep u f = u := by
  by_cases hb : s.side = "BUY"
  · have hl := hlong hb
    unfold tighteningStep at hl ⊢
    simp only [hside, hentry, hconfig, hbe, hpl, hb] at *
    repeat' split_ifs at hl ⊢
    all_goals (repeat' (casesm* _ ∧ _))
    all_goals simp_all
    all_goals (exfalso; linarith)
  · have hs := hshort hb
    unfold tighteningStep at hs ⊢
    simp only [hside, hentry, hconfig, hbe, hpl] at *
    repeat' split_ifs at hs ⊢
    all_goals (repeat' (casesm* _ ∧ _))
    all_goals simp_all
    all_goals (exfalso; linarith)

lemma barrierSteps_idem (s : BarrierState) (p f : ℚ) :
    barrierSteps (barrierSteps s p f) p f = barrierSteps s p f := by
  obtain ⟨pa1, pa2, pa3, pa4, pa5, pa6, pa7, pa8⟩ := profitLockStep_fields s p
  obtain ⟨ba1, ba2, ba3, ba4, ba5, ba6, ba7, ba8⟩ :=
    breakevenLockStep_fields (profitLockStep s p) f
  obtain ⟨ta1, ta2, ta3, ta4, ta5, ta6, ta7, ta8, ta9⟩ :=
    tighteningStep_fields (breakevenLockStep (profitLockStep s p) f) f
  have hcside : (barrierSteps s p f).side = (profitLockStep s p).side := by
    unfold barrierSteps; rw [ta1, ba1]
  have h1 : profitLockStep (barrierSteps s p f) p = barrierSteps s p f := by
    apply profitLockStep_noop s _ p
    · unfold barrierSteps; rw [ta1, ba1, pa1]
    · unfold barrierSteps; rw [ta2, ba2, pa2]
    · unfold barrierSteps; rw [ta3, ba3, pa3]
    · unfold barrierSteps; rw [ta8, ba8]
    · intro hb
      unfold barrierSteps
      have hps : (profitLockStep s p).side = "BUY" := by rw [pa1]; exact hb
      have hbs : (breakevenLockStep (profitLockStep s p) f).side = "BUY" := by
        rw [ba1]; exact hps
      exact le_trans (breakevenLockStep_sl_long _ f hps) (tighteningStep_sl_long _ f hbs)
    · intro hb
      unfold barrierSteps
      have hps : ¬ (profitLockStep s p).side = "BUY" := by rw [pa1]; exact hb
      have hbs : ¬ (breakevenLockStep (profitLockStep s p) f).side = "BUY" := by
        rw [ba1]; exact hps
      exact le_trans (tighteningStep_sl_short _ f hbs) (breakevenLockStep_sl_short _ f hps)
  have h2 : breakevenLockStep (barrierSteps s p f) f = barrierSteps s p f := by
    apply breakevenLockStep_noop (profitLockStep s p) _ f
    · unfold barrierSteps; rw [ta1, ba1]
    · unfold barrierSteps; rw [ta2, ba2]
    · unfold barrierSteps; rw [ta9]
    · intro hps
      unfold barrierSteps
      have hbs : (breakevenLockStep (profitLockStep s p) f).side = "BUY" := by
        rw [ba1]; exact hps
      exact tighteningStep_sl_long _ f hbs
    · intro hps
      unfold barrierSteps
      have hbs : ¬ (breakevenLockStep (profitLockStep s p) f).side = "BUY" := by
        rw [ba1]; exact hps
      exact tighteningStep_sl_short _ f hbs
  have h3 : tighteningStep (barrierSteps s p f) f = barrierSteps s p f := by
    apply tighteningStep_noop (breakevenLockStep (profitLockStep s p) f) _ f
    · unfold barrierSteps; rw [ta1]
    · unfold barrierSteps; rw [ta2]
    · unfold barrierSteps; rw [ta5]
    · unfold barrierSteps; rw [ta9]
    · unfold barrierSteps; rw [ta8]
    · intro _; exact le_refl _
    · intro _; exact le_refl _
  have e1 : barrierSteps (barrierSteps s p f) p f
      = tighteningStep (breakevenLockStep (profitLockStep (barrierSteps s p f) p) f) f :=
    rfl
  rw [e1, h1, h2, h3]

lemma profitLockStep_tp1hit (s : BarrierState) (p : ℚ) (bo : Bool) :
    profitLockStep { s with tp1_hit := bo } p
      = { profitLockStep s p with tp1_hit := bo } := by
  unfold profitLockStep
  dsimp only
  repeat' (split_ifs <;> simp_all)

lemma breakevenLockStep_tp1hit (s : BarrierState) (f : ℚ) (bo : Bool) :
    breakevenLockStep { s with tp1_hit := bo } f
      = { breakevenLockStep s f with tp1_hit := bo } := by
  unfold breakevenLockStep
  dsimp only
  repeat' (split_ifs <;> simp_all)

lemma tighteningStep_tp1hit (s : BarrierState) (f : ℚ) (bo : Bool) :
    tighteningStep { s with tp1_hit := bo } f
      = { tighteningStep s f with tp1_hit := bo } := by
  unfold tighteningStep
  dsimp only
  repeat' (split_ifs <;> simp_all)

lemma barrierSteps_tp1hit (s : BarrierState) (p f : ℚ) (bo : Bool) :
    barrierSteps { s with tp1_hit := bo } p f
      = { barrierSteps s p f with tp1_hit := bo } := by
  unfold barrierSteps
  rw [profitLockStep_tp1hit, breakevenLockStep_tp1hit, tighteningStep_tp1hit]

lemma barrierCheck_cases (s : BarrierState) (p : ℚ) :
    ((barrierCheck s p).2 = s ∧ (barrierCheck s p).1 ≠ some ExitReason.TakeProfit1)
  ∨ ((barrierCheck s p).2 = { s with tp1_hit := true }
      ∧ (barrierCheck s p).1 = some ExitReason.TakeProfit1 ∧ s.tp1_hit = false) := by
  unfold barrierCheck
  dsimp only
  repeat' split_ifs
  all_goals simp_all

lemma barrierCheck_hit_state (s : BarrierState) (p : ℚ) (h : s.tp1_hit = true) :
    (barrierCheck s p).2 = s := by
  unfold barrierCheck
  dsimp only
  repeat' split_ifs
  all_goals simp_all

/-! ## Claim theorems -/

/-- Insurance input in which the regime snapshot is Dead, the trading mode is
Live and every other gate would pass. -/
def c1_dead_state : InsuranceInput :=
  { trading_mode := TradingMode.Live
    max_concurrent_positions := 3
    regime_snapshot := some MarketRegime.Dead
    open_position_symbols := []
    spread_bps := none
    risk_allowed := true
    risk_reason := none
    no_go_reason := none }

/-- C1: the claim states that whenever the regime snapshot is Dead (and the
mode is neither Killed nor Paused) InsuranceGate::check_all blocks at its
third gate with a reason naming the Dead regime. The code compares the
Display output (DEAD, upper case) against the mixed case string Dead, so the
third gate can never fire: check_all gives the same answer with a Dead
snapshot as with no snapshot at all, and on a state where every other gate
passes it returns none, allowing the trade. -/
theorem C1_dead_regime_gate_never_blocks (st : InsuranceInput)
    (symbol side : String) :
    InsuranceGate.check_all { st with regime_snapshot := some MarketRegime.Dead }
        symbol side
      = InsuranceGate.check_all { st with regime_snapshot := none } symbol side
  ∧ InsuranceGate.check_all c1_dead_state "BTCUSDT" "BUY" = none := by
  constructor
  · simp [InsuranceGate.check_all, regimeToString]
  · rfl

/-- C2: the claim states that with the adaptive threshold filter enabled the
filter blocks exactly when the absolute score is under the regime specific
floor (Trending 0.10, Ranging 0.18, Volatile 0.20, Squeeze 0.15, Dead always)
of the snapshot regime, defaulting to Ranging without a snapshot. The
strategy pipeline passes the upper case Display string of the regime, while
the filter matches mixed case names, so every actual snapshot falls to the
wildcard floor 0.15: a Trending score of 0.12 is blocked although the claim
says it passes, and a Dead score of 0.5 passes although the claim says Dead
always blocks. -/
theorem C2_adaptive_threshold_regime_case_mismatch :
    adaptiveThresholdBlocks true (regimeLabel (some MarketRegime.Trending)) 0.12 = true
  ∧ specAdaptiveBlocks (some MarketRegime.Trending) 0.12 = false
  ∧ adaptiveThresholdBlocks true (regimeLabel (some MarketRegime.Dead)) 0.5 = false
  ∧ specAdaptiveBlocks (some MarketRegime.Dead) 0.5 = true
  ∧ (∀ r : MarketRegime, adaptiveMin (regimeToString r) = 0.15)
  ∧ adaptiveMin (regimeLabel none) = 0.18 := by
  refine ⟨?_, ?_, ?_, ?_, ?_, ?_⟩
  · simp [adaptiveThresholdBlocks, regimeLabel, regimeToString, adaptiveMin,
      abs_eq_max_neg]
    try norm_num
  · simp [specAdaptiveBlocks, abs_eq_max_neg]
    try norm_num
  · simp [adaptiveThresholdBlocks, regimeLabel, regimeToString, adaptiveMin,
      abs_eq_max_neg]
    try norm_num
  · simp [specAdaptiveBlocks]
    try norm_num
  · intro r
    cases r <;> simp [adaptiveMin, regimeToString]
  · simp [adaptiveMin, regimeLabel]

/-- Order flow context in which no tightening factor applies. -/
def c6_of_ctx : OrderFlowContext :=
  { cvd := 100, cvd_at_entry := 100, orderbook_imbalance := 0, vpin := 0.3 }

/-- Fresh short micro trail at entry 100 with TP1 98 and ATR one half. -/
def c6_state : MicroTrailState := MicroTrailState.new false 100 98 (1/2)

/-- C6: the claim states that best_price of a micro trail is monotone in the
favourable direction, non increasing for a short, starting from the entry
price. For a short whose best_price still equals the entry price the source
overwrites best_price with the current price even when that price is higher
(adverse): evaluating the fresh short at price 105 moves best_price from 100
up to 105, violating monotonicity. -/
theorem C6_short_best_price_not_monotone :
    c6_state.best_price = 100
  ∧ c6_state.is_long = false
  ∧ ((c6_state.evaluate 105 10 c6_of_ctx).2.best_price = 105) := by
  refine ⟨rfl, rfl, ?_⟩
  simp [MicroTrailState.evaluate, MicroTrailState.new, microBestPriceStep,
    microPhase, phaseAtrMult, microTightenMult, microVelocitySnap,
    microVelocityStep, microRatchetStep, c6_state, c6_of_ctx,
    LOOSE_ATR_MULT, STANDARD_ATR_MULT, AGGRESSIVE_ATR_MULT,
    PHASE_STANDARD_START, PHASE_AGGRESSIVE_START, CVD_TIGHTEN_FACTOR,
    OB_TIGHTEN_FACTOR, VPIN_TOXIC_TIGHTEN_FACTOR, VPIN_TOXIC_THRESHOLD,
    OB_ADVERSE_THRESHOLD, VELOCITY_THRESHOLD_PCT, VELOCITY_WINDOW_SECS,
    MIN_TRAIL_PCT, abs_eq_max_neg, min_def, max_def]
  try norm_num

/-- Accumulator state reached by one taker buy trade of notional 100 followed
by a window reset. -/
def c7_state : TradeStreamProcessor :=
  ((TradeStreamProcessor.new "BTCUSDT").process_trade 100 1 false).reset_window

/-- C7 counterexample: the claim states that the ratio reads one half
whenever the windowed total is zero, in particular immediately after
reset_window. After a pure buy window followed by reset_window the total is
zero yet the cached ratio still reads one, not one half. -/
theorem C7_reset_window_ratio_stale :
    c7_state.buy_volume + c7_state.sell_volume = 0
  ∧ c7_state.buy_volume_share = 1 := by
  constructor <;>
    simp [c7_state, TradeStreamProcessor.new, TradeStreamProcessor.process_trade,
      TradeStreamProcessor.reset_window]

lemma do_reset_killed (s : RiskInner) (date : String) (capital : ℚ) :
    (do_reset s date capital).killed = s.killed := rfl

lemma maybe_reset_daily_killed (p : RiskParams) (s : RiskInner) (today : String) :
    (maybe_reset_daily p s today).killed = s.killed := by
  unfold maybe_reset_daily
  split_ifs <;> rfl

lemma record_trade_result_killed (p : RiskParams) (s : RiskInner) (today : String)
    (pnl : ℚ) : (record_trade_result p s today pnl).killed = s.killed := by
  unfold record_trade_result
  dsimp only
  repeat' split_ifs
  all_goals simp [maybe_reset_daily_killed]

lemma can_trade_killed (p : RiskParams) (s : RiskInner) (today : String)
    (hk : s.killed = true) :
    (can_trade p s today).1 = (false, some "Kill switch activated") := by
  unfold can_trade
  dsimp only
  rw [maybe_reset_daily_killed, hk]
  simp

/-- Risk limits used for the concrete risk engine scenarios. -/
def c3_params : RiskParams :=
  { capital := 1000
    max_daily_loss_pct := 0.03
    max_consecutive_losses := 5
    max_drawdown_pct := 0.05
    max_daily_trades := 50 }

/-- C3 counterexample: the claim states that after the admin daily reset the
kill latch no longer blocks trading. Killing a fresh engine and then running
reset_daily across a date change still leaves can_trade blocked by the kill
switch. -/
theorem C3_reset_does_not_clear_kill :
    (can_trade c3_params
        (reset_daily c3_params ((RiskInner.new c3_params "2026-10-11").kill)
          "2026-10-12")
        "2026-10-12").1
      = (false, some "Kill switch activated") := by
  apply can_trade_killed
  rfl

/-- C3 as amended: after kill() every subsequent can_trade call returns
(false, Some("Kill switch activated")), and nothing clears the latch: it
survives the manual reset_daily, the automatic daily rollover and trade
recording, so the block persists for the lifetime of the engine (a process
restart is required, as the admin endpoint reports). -/
theorem C3_kill_latch_permanent (p : RiskParams) (s : RiskInner)
    (today : String) (pnl : ℚ) :
    (RiskInner.kill s).killed = true
  ∧ (s.killed = true →
      ((can_trade p s today).1 = (false, some "Kill switch activated")
        ∧ (reset_daily p s today).killed = true
        ∧ (maybe_reset_daily p s today).killed = true
        ∧ (record_trade_result p s today pnl).killed = true)) := by
  refine ⟨rfl, fun hk => ⟨can_trade_killed p s today hk, ?_, ?_, ?_⟩⟩
  · rw [reset_daily, do_reset_killed]; exact hk
  · rw [maybe_reset_daily_killed]; exact hk
  · rw [record_trade_result_killed]; exact hk

/-- Witness for C3: the amended theorem applied to a concrete killed engine. -/
theorem C3_kill_latch_permanent_witness :
    (can_trade c3_params ((RiskInner.new c3_params "2026-10-11").kill)
        "2026-10-12").1
      = (false, some "Kill switch activated")
  ∧ (reset_daily c3_params ((RiskInner.new c3_params "2026-10-11").kill)
        "2026-10-12").killed = true :=
  ⟨((C3_kill_latch_permanent c3_params ((RiskInner.new c3_params "2026-10-11").kill)
      "2026-10-12" 5).2 rfl).1,
   ((C3_kill_latch_permanent c3_params ((RiskInner.new c3_params "2026-10-11").kill)
      "2026-10-12" 5).2 rfl).2.1⟩

/-- C4: the claim states that over every sequence of evaluate calls the
current SL price of a barrier state is monotone non decreasing for side BUY
and monotone non increasing for side SELL; each adjustment block only
replaces the SL when the candidate is tighter, which is exactly taking the
max (long) or min (short) of candidate and previous value. -/
theorem C4_current_sl_price_monotone (s : BarrierState) (ticks : List (ℚ × ℕ)) :
    (s.side = "BUY" → s.current_sl_price ≤ (evalSeq s ticks).current_sl_price)
  ∧ (s.side = "SELL" → (evalSeq s ticks).current_sl_price ≤ s.current_sl_price) := by
  constructor
  · exact fun h => evalSeq_sl_long ticks s h
  · intro h
    have hne : ¬ s.side = "BUY" := by rw [h]; simp
    exact evalSeq_sl_short ticks s hne

/-- Long barrier state at entry 100 used as the C4 witness input. -/
def c4_state : BarrierState :=
  BarrierState.new (BarrierConfig.explicit 1 2 4 3600) 100 "BUY" 0

/-- Witness for C4: monotonicity at a concrete long state and tick list. -/
theorem C4_current_sl_price_monotone_witness :
    c4_state.current_sl_price
      ≤ (evalSeq c4_state [(101, 100), (100, 200)]).current_sl_price :=
  (C4_current_sl_price_monotone c4_state [(101, 100), (100, 200)]).1 rfl

/-- C9: the claim states that across a UTC date boundary every daily counter
is reset exactly once before the first read or record after the boundary:
the rollover zeroes pnl, streak, trade count and drawdown, restores peak
equity to capital, stamps the new date (making the reset idempotent), and
the first can_trade after the boundary sees clean counters with no breaker
tripped. -/
theorem C9_daily_rollover_reset_once (p : RiskParams) (s : RiskInner)
    (today : String)
    (hdate : s.current_date ≠ today) (hkill : s.killed = false)
    (hc : 0 < p.capital) (hl : 0 < p.max_daily_loss_pct)
    (hcl : 0 < p.max_consecutive_losses) (hdd : 0 < p.max_drawdown_pct)
    (ht : 0 < p.max_daily_trades) :
    (maybe_reset_daily p s today).daily_pnl = 0
  ∧ (maybe_reset_daily p s today).consecutive_losses = 0
  ∧ (maybe_reset_daily p s today).daily_trades_count = 0
  ∧ (maybe_reset_daily p s today).max_drawdown_today = 0
  ∧ (maybe_reset_daily p s today).peak_equity_today = p.capital
  ∧ (maybe_reset_daily p s today).current_date = today
  ∧ maybe_reset_daily p (maybe_reset_daily p s today) today
      = maybe_reset_daily p s today
  ∧ (can_trade p s today).1 = (true, none) := by
  have hr : maybe_reset_daily p s today = do_reset s today p.capital := by
    unfold maybe_reset_daily
    rw [if_neg hdate]
  have hdate2 : (do_reset s today p.capital).current_date = today := rfl
  refine ⟨by rw [hr]; rfl, by rw [hr]; rfl, by rw [hr]; rfl, by rw [hr]; rfl,
    by rw [hr]; rfl, by rw [hr]; rfl, ?_, ?_⟩
  · rw [hr]
    unfold maybe_reset_daily
    rw [if_pos hdate2]
  · unfold can_trade
    dsimp only
    rw [hr]
    unfold do_reset
    dsimp only
    rw [if_pos hc]
    split_ifs with h1 h2 h3 h4 h5
    · simp_all
    · exfalso; rw [neg_zero, zero_div] at h2; linarith
    · exfalso; omega
    · exfalso; linarith
    · exfalso; omega
    · rfl

/-- Scenario state for the C9 witness: daily pnl minus 50 on the old date. -/
def c9_state : RiskInner :=
  { RiskInner.new c3_params "2026-10-11" with daily_pnl := -50 }

/-- Witness for C9: the rollover theorem applied to the concrete scenario of
spec section 8 (pnl minus 50 before midnight, clean can_trade after). -/
theorem C9_daily_rollover_reset_once_witness :
    (maybe_reset_daily c3_params c9_state "2026-10-12").daily_pnl = 0
  ∧ (can_trade c3_params c9_state "2026-10-12").1 = (true, none) :=
  ⟨(C9_daily_rollover_reset_once c3_params c9_state "2026-10-12"
      (by simp [c9_state, RiskInner.new]) rfl (by norm_num [c3_params])
      (by norm_num [c3_params]) (by norm_num [c3_params])
      (by norm_num [c3_params]) (by norm_num [c3_params])).1,
   (C9_daily_rollover_reset_once c3_params c9_state "2026-10-12"
      (by simp [c9_state, RiskInner.new]) rfl (by norm_num [c3_params])
      (by norm_num [c3_params]) (by norm_num [c3_params])
      (by norm_num [c3_params]) (by norm_num [c3_params])).2.2.2.2.2.2.2⟩

lemma elapsedFraction_congr (a b : BarrierState) (t : ℕ)
    (hc : a.config = b.config) (ho : a.opened_at_secs = b.opened_at_secs) :
    elapsedFraction a t = elapsedFraction b t := by
  unfold elapsedFraction
  rw [hc, ho]

/-- Long barrier state at entry 100 (SL 1, TP1 2, TP2 4 percent, one hour)
used in the C5 scenarios. -/
def c5_state : BarrierState :=
  BarrierState.new (BarrierConfig.explicit 1 2 4 3600) 100 "BUY" 1000

/-- C5 counterexample: the claim states evaluation at a fixed (price, time)
is idempotent in result and state. At price 102.1 the first evaluation
returns TakeProfit1 and latches tp1_hit, so the second evaluation at the
same (price, time) returns none instead. -/
theorem C5_double_evaluate_not_idempotent :
    (c5_state.evaluate (1021/10) 1001).1 = some ExitReason.TakeProfit1
  ∧ ((c5_state.evaluate (1021/10) 1001).2.evaluate (1021/10) 1001).1 = none := by
  constructor <;>
  · simp [c5_state, BarrierState.evaluate, BarrierState.new, BarrierConfig.explicit,
      barrierSteps, barrierCheck, profitLockStep, breakevenLockStep, tighteningStep,
      elapsedFraction, MIN_SL_PCT, MIN_TP1_PCT, MIN_TP2_PCT, BREAKEVEN_BUFFER_PCT,
      TIGHTEN_START_FRACTION, BREAKEVEN_LOCK_FRACTION, PROFIT_LOCK_TRIGGER,
      abs_eq_max_neg, max_def, min_def]
    try norm_num

/-- C5 as amended: evaluating a barrier twice at the same (price, time) is
idempotent on the state, and the result is also unchanged unless the first
call returned TakeProfit1 — in that case the first call latches tp1_hit and
the second call reports whatever the remaining barriers give. -/
theorem C5_amended_second_evaluate_noop (s : BarrierState) (p : ℚ) (t : ℕ) :
    ((s.evaluate p t).2.evaluate p t).2 = (s.evaluate p t).2
  ∧ ((s.evaluate p t).1 ≠ some ExitReason.TakeProfit1 →
      ((s.evaluate p t).2.evaluate p t).1 = (s.evaluate p t).1) := by
  by_cases ht : s.config.time_limit_secs ≤ t - s.opened_at_secs
  · have h1 : s.evaluate p t = (some ExitReason.TimeBarrier, s) := by
      unfold BarrierState.evaluate
      rw [if_pos ht]
    rw [h1]
    dsimp only
    rw [h1]
    exact ⟨rfl, fun _ => rfl⟩
  · have h1 : s.evaluate p t
        = barrierCheck (barrierSteps s p (elapsedFraction s t)) p := by
      unfold BarrierState.evaluate
      rw [if_neg ht]
    obtain ⟨us, ue, ut1, ut2, uc, uo, uh⟩ :=
      barrierSteps_fields s p (elapsedFraction s t)
    have hidem : barrierSteps (barrierSteps s p (elapsedFraction s t)) p
        (elapsedFraction s t) = barrierSteps s p (elapsedFraction s t) :=
      barrierSteps_idem s p (elapsedFraction s t)
    have hfe : elapsedFraction (barrierSteps s p (elapsedFraction s t)) t
        = elapsedFraction s t :=
      elapsedFraction_congr _ s t uc uo
    have htu : ¬ (barrierSteps s p (elapsedFraction s t)).config.time_limit_secs
        ≤ t - (barrierSteps s p (elapsedFraction s t)).opened_at_secs := by
      rw [uc, uo]
      exact ht
    rcases barrierCheck_cases (barrierSteps s p (elapsedFraction s t)) p with
      ⟨hv, hr⟩ | ⟨hv, hr, hhit⟩
    · have h2 : (barrierSteps s p (elapsedFraction s t)).evaluate p t
          = barrierCheck (barrierSteps s p (elapsedFraction s t)) p := by
        unfold BarrierState.evaluate
        rw [if_neg htu, hfe, hidem]
      constructor
      · rw [h1, hv, h2, hv]
      · intro _
        rw [h1, hv, h2]
    · have hw1 : elapsedFraction
          { barrierSteps s p (elapsedFraction s t) with tp1_hit := true } t
          = elapsedFraction s t := hfe
      have htw : ¬ ({ barrierSteps s p (elapsedFraction s t) with tp1_hit := true }
            : BarrierState).config.time_limit_secs
          ≤ t - ({ barrierSteps s p (elapsedFraction s t) with tp1_hit := true }
            : BarrierState).opened_at_secs := htu
      have hsw : barrierSteps
          { barrierSteps s p (elapsedFraction s t) with tp1_hit := true } p
          (elapsedFraction s t)
          = { barrierSteps s p (elapsedFraction s t) with tp1_hit := true } := by
        rw [barrierSteps_tp1hit, hidem]
      have h2 : ({ barrierSteps s p (elapsedFraction s t) with tp1_hit := true }
            : BarrierState).evaluate p t
          = barrierCheck
              { barrierSteps s p (elapsedFraction s t) with tp1_hit := true } p := by
        unfold BarrierState.evaluate
        rw [if_neg htw, hw1, hsw]
      have h3 : (barrierCheck
            { barrierSteps s p (elapsedFraction s t) with tp1_hit := true } p).2
          = { barrierSteps s p (elapsedFraction s t) with tp1_hit := true } :=
        barrierCheck_hit_state _ p rfl
      constructor
      · rw [h1, hv, h2, h3]
      · intro hne
        rw [h1] at hne
        exact absurd hr hne

/-- Witness for C5: at price 100.5 the first evaluation of the concrete long
state returns none, so the second evaluation repeats both state and result. -/
theorem C5_amended_second_evaluate_noop_witness :
    ((c5_state.evaluate (201/2) 1001).2.evaluate (201/2) 1001).2
      = (c5_state.evaluate (201/2) 1001).2
  ∧ ((c5_state.evaluate (201/2) 1001).2.evaluate (201/2) 1001).1
      = (c5_state.evaluate (201/2) 1001).1 := by
  have h := C5_amended_second_evaluate_noop c5_state (201/2) 1001
  have hnone : (c5_state.evaluate (201/2) 1001).1 = none := by
    simp [c5_state, BarrierState.evaluate, BarrierState.new, BarrierConfig.explicit,
      barrierSteps, barrierCheck, profitLockStep, breakevenLockStep, tighteningStep,
      elapsedFraction, MIN_SL_PCT, MIN_TP1_PCT, MIN_TP2_PCT, BREAKEVEN_BUFFER_PCT,
      TIGHTEN_START_FRACTION, BREAKEVEN_LOCK_FRACTION, PROFIT_LOCK_TRIGGER,
      abs_eq_max_neg, max_def, min_def]
    try norm_num
  exact ⟨h.1, h.2 (by rw [hnone]; simp)⟩

/-- Strategy parameters equal to the defaults except that the stop loss
floor parameter is set to zero. -/
def c8_params : StrategyParams :=
  { sl_atr_multiplier := 1.5
    tp1_atr_multiplier := 2.5
    tp2_atr_multiplier := 4.0
    min_sl_pct := 0
    min_tp1_pct := 0.6
    min_tp2_pct := 1.0
    base_position_pct := 2.0 }

/-- C8 counterexample: the claim asserts the barrier floors hold under every
runtime configuration, but the floors are themselves configuration fields.
With min_sl_pct set to zero and a small ATR the pipeline emits a proposal
whose SL distance over entry is 0.00015, far below 0.004. -/
theorem C8_floors_violated_by_config :
    (buildProposal c8_params (1/100) 100 "BUY" 1000 "BTCUSDT" "TRENDING" 0.3).map
        TradeProposal.stop_loss = some (100 - 3/200)
  ∧ |(100 : ℚ) - (100 - 3/200)| / 100 < 0.004 := by
  constructor
  · simp [buildProposal, c8_params, max_def]
    norm_num
  · rw [show |(100 : ℚ) - (100 - 3/200)| = 3/200 by norm_num [abs_eq_max_neg]]
    norm_num

/-- C8 as amended: whenever the configured floor parameters respect their
documented minimums (min_sl_pct at least 0.4, min_tp1_pct at least 0.6,
min_tp2_pct at least 1.0 — the defaults) and the entry price is positive,
every emitted proposal satisfies SL distance over entry at least 0.004, TP1
distance over entry at least 0.006 and TP2 distance over entry at least
0.01. -/
theorem C8_amended_floors_hold (params : StrategyParams) (atr price : ℚ)
    (side : String) (bal : ℚ) (sym reg : String) (score : ℚ)
    (pr : TradeProposal)
    (hp : 0 < price)
    (hsl : 0.4 ≤ params.min_sl_pct) (htp1 : 0.6 ≤ params.min_tp1_pct)
    (htp2 : 1.0 ≤ params.min_tp2_pct)
    (h : buildProposal params atr price side bal sym reg score = some pr) :
    pr.entry_price = price
  ∧ (0.004 : ℚ) ≤ |pr.entry_price - pr.stop_loss| / pr.entry_price
  ∧ (0.006 : ℚ) ≤ |pr.take_profit_1 - pr.entry_price| / pr.entry_price
  ∧ (0.01 : ℚ) ≤ |pr.take_profit_2 - pr.entry_price| / pr.entry_price := by
  have hslb : price * (params.min_sl_pct / 100)
      ≤ max (atr * params.sl_atr_multiplier) (price * (params.min_sl_pct / 100)) :=
    le_max_right _ _
  have htp1b : price * (params.min_tp1_pct / 100)
      ≤ max (atr * params.tp1_atr_multiplier) (price * (params.min_tp1_pct / 100)) :=
    le_max_right _ _
  have htp2b : price * (params.min_tp2_pct / 100)
      ≤ max (atr * params.tp2_atr_multiplier) (price * (params.min_tp2_pct / 100)) :=
    le_max_right _ _
  have hm1 : (0 : ℚ) ≤ price * (params.min_sl_pct - 0.4) :=
    mul_nonneg hp.le (by linarith)
  have hm2 : (0 : ℚ) ≤ price * (params.min_tp1_pct - 0.6) :=
    mul_nonneg hp.le (by linarith)
  have hm3 : (0 : ℚ) ≤ price * (params.min_tp2_pct - 1.0) :=
    mul_nonneg hp.le (by linarith)
  have hk1 : 0.004 * price
      ≤ max (atr * params.sl_atr_multiplier) (price * (params.min_sl_pct / 100)) := by
    nlinarith [hslb, hm1]
  have hk2 : 0.006 * price
      ≤ max (atr * params.tp1_atr_multiplier) (price * (params.min_tp1_pct / 100)) := by
    nlinarith [htp1b, hm2]
  have hk3 : 0.01 * price
      ≤ max (atr * params.tp2_atr_multiplier) (price * (params.min_tp2_pct / 100)) := by
    nlinarith [htp2b, hm3]
  unfold buildProposal at h
  dsimp only at h
  rw [if_pos hp] at h
  by_cases hb : side = "BUY"
  · rw [if_pos hb] at h
    split_ifs at h with hq
    rw [Option.some.injEq] at h
    subst h
    dsimp only
    refine ⟨rfl, ?_, ?_, ?_⟩
    · rw [show price - (price - max (atr * params.sl_atr_multiplier)
          (price * (params.min_sl_pct / 100)))
        = max (atr * params.sl_atr_multiplier)
          (price * (params.min_sl_pct / 100)) by ring,
        abs_of_nonneg (by nlinarith [hk1, hp]), le_div_iff₀ hp]
      linarith [hk1]
    · rw [show price + max (atr * params.tp1_atr_multiplier)
          (price * (params.min_tp1_pct / 100)) - price
        = max (atr * params.tp1_atr_multiplier)
          (price * (params.min_tp1_pct / 100)) by ring,
        abs_of_nonneg (by nlinarith [hk2, hp]), le_div_iff₀ hp]
      linarith [hk2]
    · rw [show price + max (atr * params.tp2_atr_multiplier)
          (price * (params.min_tp2_pct / 100)) - price
        = max (atr * params.tp2_atr_multiplier)
          (price * (params.min_tp2_pct / 100)) by ring,
        abs_of_nonneg (by nlinarith [hk3, hp]), le_div_iff₀ hp]
      linarith [hk3]
  · rw [if_neg hb] at h
    split_ifs at h with hq
    rw [Option.some.injEq] at h
    subst h
    dsimp only
    refine ⟨rfl, ?_, ?_, ?_⟩
    · rw [show price - (price + max (atr * params.sl_atr_multiplier)
          (price * (params.min_sl_pct / 100)))
        = -(max (atr * params.sl_atr_multiplier)
            (price * (params.min_sl_pct / 100))) by ring,
        abs_neg, abs_of_nonneg (by nlinarith [hk1, hp]), le_div_iff₀ hp]
      linarith [hk1]
    · rw [show price - max (atr * params.tp1_atr_multiplier)
          (price * (params.min_tp1_pct / 100)) - price
        = -(max (atr * params.tp1_atr_multiplier)
            (price * (params.min_tp1_pct / 100))) by ring,
        abs_neg, abs_of_nonneg (by nlinarith [hk2, hp]), le_div_iff₀ hp]
      linarith [hk2]
    · rw [show price - max (atr * params.tp2_atr_multiplier)
          (price * (params.min_tp2_pct / 100)) - price
        = -(max (atr * params.tp2_atr_multiplier)
            (price * (params.min_tp2_pct / 100))) by ring,
        abs_neg, abs_of_nonneg (by nlinarith [hk3, hp]), le_div_iff₀ hp]
      linarith [hk3]

/-- Proposal produced by the default configuration at entry 100 with a small
ATR of 0.01: every barrier distance sits on its configured floor. -/
def c8w_proposal : TradeProposal :=
  { symbol := "BTCUSDT"
    side := "BUY"
    entry_price := 100
    quantity := 1/5
    stop_loss := 498/5
    take_profit_1 := 503/5
    take_profit_2 := 101
    confidence := 3/10
    regime := "TRENDING"
    score := 3/10 }

/-- Witness for C8: the amended floor theorem applied to the default
configuration proposal. -/
theorem C8_amended_floors_hold_witness :
    (0.004 : ℚ)
      ≤ |c8w_proposal.entry_price - c8w_proposal.stop_loss| / c8w_proposal.entry_price :=
  (C8_amended_floors_hold StrategyParams.default (1/100) 100 "BUY" 1000
    "BTCUSDT" "TRENDING" (3/10) c8w_proposal
    (by norm_num)
    (by norm_num [StrategyParams.default])
    (by norm_num [StrategyParams.default])
    (by norm_num [StrategyParams.default])
    (by simp [buildProposal, StrategyParams.default, c8w_proposal, max_def,
          abs_eq_max_neg]
        try norm_num)).2.1

/-- Twenty constant closes: enough for the Bollinger window but far fewer
than the 64 closes the Hurst computation requires. -/
def c10_closes : List ℚ :=
  [1, 1, 1, 1, 1, 1, 1, 1, 1, 1, 1, 1, 1, 1, 1, 1, 1, 1, 1, 1]

/-- C10: the claim states that RegimeDetector::detect is absent exactly when
the Bollinger computation is absent — ADX, Hurst and entropy fall back to
sentinel defaults instead of propagating absence — and that fewer than 64
closes always makes the Hurst exponent absent (yet, by the first part, never
by itself makes the regime absent). -/
theorem C10_detect_absent_iff_bollinger_absent (sqrtQ lnQ log2Q : ℚ → ℚ)
    (candles : List Candle) (closes : List ℚ) (age : ℚ) :
    ((RegimeDetector.detect sqrtQ lnQ log2Q candles closes age).isSome
      = (calculate_bollinger sqrtQ closes 20 2).isSome)
  ∧ (closes.length < 64 → calculate_hurst_exponent sqrtQ lnQ closes = none) := by
  constructor
  · unfold RegimeDetector.detect
    rcases hb : calculate_bollinger sqrtQ closes 20 2 with _ | bb <;> simp [hb]
  · intro hlen
    unfold calculate_hurst_exponent
    rw [if_pos (by simpa [MIN_CLOSES] using hlen)]

/-- Witness for C10: on twenty constant closes the Bollinger result exists,
so detection produces a regime even though Hurst is absent. -/
theorem C10_detect_absent_iff_bollinger_absent_witness :
    (RegimeDetector.detect id id id [] c10_closes 0).isSome = true
  ∧ calculate_hurst_exponent id id c10_closes = none := by
  have h := C10_detect_absent_iff_bollinger_absent id id id [] c10_closes 0
  constructor
  · rw [h.1]
    simp [calculate_bollinger, c10_closes, qsum]
    try norm_num
  · exact h.2 (by simp [c10_closes])

/-- C7 as amended: the buy volume ratio is a cached field — one half at
construction, recomputed to buy over (buy plus sell) by process_trade
whenever the updated windowed total is positive and left unchanged
otherwise, and untouched by reset_window, which zeroes only the windowed
accumulators (never cvd). After a reset it therefore retains its pre reset
value rather than reverting to one half. -/
theorem C7_amended_ratio_cached (s : TradeStreamProcessor) (sym : String)
    (price quantity : ℚ) (m : Bool) :
    (TradeStreamProcessor.new sym).buy_volume_share = 1/2
  ∧ (s.reset_window).buy_volume_share = s.buy_volume_share
  ∧ (s.reset_window).cvd = s.cvd
  ∧ (s.reset_window).buy_volume = 0
  ∧ (s.reset_window).sell_volume = 0
  ∧ (0 < (s.process_trade price quantity m).buy_volume
        + (s.process_trade price quantity m).sell_volume →
      (s.process_trade price quantity m).buy_volume_share
        = (s.process_trade price quantity m).buy_volume
          / ((s.process_trade price quantity m).buy_volume
            + (s.process_trade price quantity m).sell_volume))
  ∧ (¬ 0 < (s.process_trade price quantity m).buy_volume
        + (s.process_trade price quantity m).sell_volume →
      (s.process_trade price quantity m).buy_volume_share
        = s.buy_volume_share) := by
  refine ⟨rfl, rfl, rfl, rfl, rfl, ?_, ?_⟩ <;>
  · intro h
    unfold TradeStreamProcessor.process_trade at *
    dsimp only at *
    split_ifs at * <;> simp_all

/-- Witness for C7: a single taker buy of notional 100 on a fresh
accumulator drives the cached ratio to buy over total, here one. -/
theorem C7_amended_ratio_cached_witness :
    ((TradeStreamProcessor.new "BTCUSDT").process_trade 100 1 false).buy_volume_share
      = ((TradeStreamProcessor.new "BTCUSDT").process_trade 100 1 false).buy_volume
        / (((TradeStreamProcessor.new "BTCUSDT").process_trade 100 1 false).buy_volume
          + ((TradeStreamProcessor.new "BTCUSDT").process_trade 100 1 false).sell_volume) :=
  (C7_amended_ratio_cached (TradeStreamProcessor.new "BTCUSDT") "BTCUSDT"
    100 1 false).2.2.2.2.2.1
    (by simp [TradeStreamProcessor.process_trade, TradeStreamProcessor.new]
        try norm_num)

end Aurora
